import Mathlib

/-!
Verification of the Nova Launcher core (src/src/main.py, src/src/config.py)
against its natural-language specification.

The Python source is shallowly embedded: the settings store, the version
catalog projector, the installation detector, the installation orchestrator,
the launch identity resolver and the launch supervisor are translated into
executable Lean definitions, with the external collaborators (network
installers, filesystem, process start) represented by explicit inputs.
-/

/-- A JSON-like value as stored in the flat settings document. -/
inductive JValue
  | str (s : String)
  | int (n : Int)
  | bool (b : Bool)
  | null
deriving DecidableEq, Repr

/-- A flat key-value document (Python `dict` with string keys), keeping
insertion order like Python dicts do. -/
abbrev JDict := List (String × JValue)

/-- Python `d[k]` as an `Option`: first binding of key `k`. -/
def jget (d : JDict) (k : String) : Option JValue :=
  (d.find? (fun kv => kv.1 == k)).map (fun kv => kv.2)

/-- Python `d[k] = v`: overwrite the binding if the key is present, else
append it (Python dicts keep insertion order). -/
def jset (d : JDict) (k : String) (v : JValue) : JDict :=
  if d.any (fun kv => kv.1 == k) then
    d.map (fun kv => if kv.1 == k then (k, v) else kv)
  else d ++ [(k, v)]

/-- Python `base.update(upd)`: apply every binding of `upd` to `base`,
in order (main.py line 1548). -/
def jupdate (base upd : JDict) : JDict :=
  upd.foldl (fun acc kv => jset acc kv.1 kv.2) base

/-- Constant `DEFAULT_MINECRAFT_DIR` from config.py (platform dependent; its exact
text is irrelevant to every claim, a representative value is used). -/
def DEFAULT_MINECRAFT_DIR : String := "~/.minecraft"

/-- Constant `DEFAULT_SETTINGS` from config.py lines 27-33.  Note that it carries
only five keys: no `show_fabric`, `show_forge` or `show_snapshots`. -/
def DEFAULT_SETTINGS : JDict :=
  [("minecraft_directory", JValue.str DEFAULT_MINECRAFT_DIR),
   ("username", JValue.str "Player"),
   ("last_used_version", JValue.null),
   ("ram_allocation", JValue.int 2048),
   ("java_path", JValue.str "")]

/-- Python subscript `DEFAULT_SETTINGS[k]`: raises `KeyError` when the key
is absent. -/
def pyIndex (d : JDict) (k : String) : Except String JValue :=
  match jget d k with
  | some v => Except.ok v
  | none => Except.error ("KeyError: " ++ k)

/-- The three observable on-disk states of the settings file. -/
inductive DiskState
  | missing
  | unparseable
  | parsed (d : JDict)

/-- Method `NovaLauncher.load_settings` (main.py lines 1531-1552).  The defaults
dict literal is evaluated first, its entries in source order; the
`ram_allocation`, `java_path`, `show_fabric`, `show_forge` and
`show_snapshots` entries subscript `DEFAULT_SETTINGS`.  Only the file
read and JSON parse sit inside the `try` whose exceptions are swallowed. -/
def load_settings (disk : DiskState) : Except String JDict := do
  let ram ← pyIndex DEFAULT_SETTINGS "ram_allocation"
  let jp ← pyIndex DEFAULT_SETTINGS "java_path"
  let sf ← pyIndex DEFAULT_SETTINGS "show_fabric"
  let sfo ← pyIndex DEFAULT_SETTINGS "show_forge"
  let ss ← pyIndex DEFAULT_SETTINGS "show_snapshots"
  let base : JDict :=
    [("minecraft_directory", JValue.str DEFAULT_MINECRAFT_DIR),
     ("username", JValue.str ""),
     ("last_used_version", JValue.null),
     ("ram_allocation", ram),
     ("java_path", jp),
     ("show_fabric", sf),
     ("show_forge", sfo),
     ("show_snapshots", ss)]
  match disk with
  | DiskState.missing => pure base
  | DiskState.unparseable => pure base
  | DiskState.parsed d => pure (jupdate base d)

/-- Method `SettingsDialog.save_settings` (main.py line 670): the RAM value written
back is the spin-box value times 1024; the spin box clamps its value to
`[1, 16]` (main.py lines 585-586). -/
def dialog_ram_allocation (spinValue : Nat) : Nat :=
  (min 16 (max 1 spinValue)) * 1024

/-- Field `ramAllocationMB` of a settings dict is a positive multiple of 1024. -/
def ramInvariant (d : JDict) : Prop :=
  ∃ n : Int, jget d "ram_allocation" = some (JValue.int n) ∧ 0 < n ∧ (1024 : Int) ∣ n

instance (d : JDict) : Decidable (ramInvariant d) := by
  unfold ramInvariant
  match h : jget d "ram_allocation" with
  | some (JValue.int n) =>
    refine decidable_of_iff (0 < n ∧ (1024 : Int) ∣ n) ?_
    constructor
    · intro hn
      exact ⟨n, rfl, hn⟩
    · rintro ⟨m, hm, hms⟩
      cases hm
      exact hms
  | some (JValue.str s) =>
    refine isFalse ?_
    rintro ⟨m, hm, -⟩
    simp at hm
  | some (JValue.bool b) =>
    refine isFalse ?_
    rintro ⟨m, hm, -⟩
    simp at hm
  | some JValue.null =>
    refine isFalse ?_
    rintro ⟨m, hm, -⟩
    simp at hm
  | none =>
    refine isFalse ?_
    rintro ⟨m, hm, -⟩
    simp at hm

/-- C1: For every on-disk settings state (file missing, file present but
unparseable, or file present with any subset of keys), the Settings Store's
Load operation raises `KeyError: show_fabric` to the caller: the defaults
dict literal in `load_settings` subscripts `DEFAULT_SETTINGS["show_fabric"]`
(main.py line 1539) but config.py's `DEFAULT_SETTINGS` carries no such key,
and this evaluation happens before the `try` block.  So Load never returns
a merged settings value, contradicting the specified fail-soft contract. -/
theorem C1_load_settings_always_raises :
    ∀ disk : DiskState, load_settings disk = Except.error "KeyError: show_fabric" :=
  fun _ => rfl

/-- C4, counterexample: loading from the on-disk document
`{"ram_allocation": 1000}` does not produce any settings state whose
`ram_allocation` is a positive multiple of 1024: `load_settings` never
returns at all on that document (it raises, see `load_settings`), so the
claimed invariant fails on the load path as stated. -/
theorem C4_counterexample :
    ¬ ∃ d : JDict,
        load_settings (DiskState.parsed [("ram_allocation", JValue.int 1000)]) =
          Except.ok d ∧ ramInvariant d := by
  rintro ⟨d, hd, -⟩
  have herr : load_settings (DiskState.parsed [("ram_allocation", JValue.int 1000)]) =
      Except.error "KeyError: show_fabric" := rfl
  rw [herr] at hd
  exact Except.noConfusion hd

/-- C4, amended: only the settings-dialog save path enforces the invariant.
The dialog always writes `spin * 1024` with the spin box clamped to
`[1, 16]`, so every saved value is a positive multiple of 1024; the merge
step of `load_settings` (`settings.update(loaded_settings)`, main.py line
1548) instead takes `ram_allocation` verbatim from the on-disk document, so
a document carrying `1000` yields `1000` in the merged dict. -/
theorem C4_dialog_ram_invariant :
    (∀ spinValue : Nat,
        0 < dialog_ram_allocation spinValue ∧ 1024 ∣ dialog_ram_allocation spinValue) ∧
    jget (jupdate DEFAULT_SETTINGS [("ram_allocation", JValue.int 1000)])
        "ram_allocation" = some (JValue.int 1000) := by
  refine ⟨fun spinValue => ?_, by decide⟩
  unfold dialog_ram_allocation
  constructor
  · have h1 : 0 < min 16 (max 1 spinValue) := by
      have := Nat.le_max_left 1 spinValue
      omega
    positivity
  · exact Dvd.intro_left _ rfl

/-! ## Installation orchestrator (`MinecraftInstallThread.run`, main.py 57-187) -/

/-- The three request variants (`version_type` strings in the source). -/
inductive VType
  | vanilla
  | fabric
  | forge
deriving DecidableEq, Repr

/-- Scan for `Python`-style `split('-')[-1]`: the accumulator holds the
current segment and is reset at every dash. -/
def lastDashSegAux : List Char → List Char → List Char
  | acc, [] => acc
  | acc, c :: cs => if c = '-' then lastDashSegAux [] cs else lastDashSegAux (acc ++ [c]) cs

/-- Python `s.split('-')[-1]`: the tail segment after the last dash
(the whole string when no dash occurs; `split` never returns an empty
list, so the `IndexError` branch of main.py 100-102 is unreachable). -/
def lastDashSegment (s : String) : String :=
  ⟨lastDashSegAux [] s.data⟩

/-- Outcomes of the external installer collaborators for one request:
whether each blocking call returns or raises (with the exception text),
and the Forge capability answer. -/
structure InstallEnv where
  vanillaResult : Except String Unit
  fabricResult : Except String Unit
  supportsAutomaticInstall : Bool
  forgeResult : Except String Unit

/-- On-disk install effects actually performed by a run, in order. -/
inductive InstallAction
  | installBase (id : String)
  | installFabric (baseId : String)
  | installForge (forgeVersionString : String)
deriving DecidableEq, Repr

/-- Method `MinecraftInstallThread.run` (main.py lines 88-187): returns the
`complete_signal` payload `(success, message)` together with the install
effects that completed before the terminal signal.  The base (vanilla)
stage always runs first; the Fabric/Forge stage only afterwards; a Forge
request without a `forge_version_string` fails after the base stage with
the `Missing Forge version info` message; an unsupported automatic Forge
install raises inside the overlay `try` and is reported with the
`Vanilla ... installed, but Forge failed: ...` wrapper. -/
def installRun (version : String) (vtype : VType) (forgeVersionString : Option String)
    (env : InstallEnv) : (Bool × String) × List InstallAction :=
  let base := if vtype = VType.fabric then lastDashSegment version else version
  match env.vanillaResult with
  | Except.error e => ((false, "Error installing " ++ version ++ ": " ++ e), [])
  | Except.ok _ =>
    let acts := [InstallAction.installBase base]
    match vtype with
    | VType.vanilla =>
      ((true, "Minecraft " ++ version ++ " installed successfully."), acts)
    | VType.fabric =>
      match env.fabricResult with
      | Except.error e =>
        ((false, "Vanilla " ++ base ++ " installed, but Fabric failed: " ++ e), acts)
      | Except.ok _ =>
        ((true, "Fabric " ++ base ++ " (" ++ version ++ ") installed successfully."),
          acts ++ [InstallAction.installFabric base])
    | VType.forge =>
      match forgeVersionString with
      | none => ((false, "Missing Forge version info for " ++ base), acts)
      | some fvs =>
        if !env.supportsAutomaticInstall then
          ((false, "Vanilla " ++ base ++ " installed, but Forge failed: " ++
            "Automatic installation not supported for Forge " ++ fvs ++
            ". Please install manually."), acts)
        else
          match env.forgeResult with
          | Except.error e =>
            ((false, "Vanilla " ++ base ++ " installed, but Forge failed: " ++ e), acts)
          | Except.ok _ =>
            ((true, "Forge " ++ base ++ " installed successfully."),
              acts ++ [InstallAction.installForge fvs])

/-- String `needle` occurs as a contiguous substring of `msg`. -/
def mentions (needle msg : String) : Prop :=
  needle.data <:+: msg.data

instance (needle msg : String) : Decidable (mentions needle msg) :=
  List.decidableInfix needle.data msg.data

/-- The failure message states that the base succeeded and the overlay
failed: it contains both `"Vanilla <base> installed"` and `"failed"`. -/
def statesBaseSucceededAndOverlayFailed (base msg : String) : Prop :=
  mentions ("Vanilla " ++ base ++ " installed") msg ∧ mentions "failed" msg

/-- An installer environment where every collaborator succeeds. -/
def envAllOk : InstallEnv :=
  ⟨Except.ok (), Except.ok (), true, Except.ok ()⟩

/-- Helper: a substring occurrence exhibited by a decomposition of the
message's character data. -/
theorem mentions_of_data_eq (needle msg : String) (pre post : List Char)
    (h : msg.data = pre ++ needle.data ++ post) : mentions needle msg :=
  ⟨pre, post, h.symm⟩

/-- C2, counterexample: a Forge (OverlayB) request whose specifier is
absent: the base stage succeeds (the base install effect is recorded) and
the run then terminates with failure, but the terminal message
`"Missing Forge version info for 1.20.1"` mentions neither `"Vanilla"`
nor `"installed"`, so it does not state that the base succeeded. -/
theorem C2_counterexample :
    installRun "1.20.1" VType.forge none envAllOk =
      ((false, "Missing Forge version info for 1.20.1"),
        [InstallAction.installBase "1.20.1"]) ∧
    ¬ mentions "Vanilla" "Missing Forge version info for 1.20.1" ∧
    ¬ mentions "installed" "Missing Forge version info for 1.20.1" ∧
    ¬ statesBaseSucceededAndOverlayFailed "1.20.1"
        "Missing Forge version info for 1.20.1" := by
  refine ⟨rfl, by decide, by decide, ?_⟩
  rintro ⟨h, -⟩
  revert h
  decide

/-- C2, amended: for every non-Plain request in which the base stage
succeeds and the overlay stage then fails by an exception raised while
attempting the overlay install — a Fabric installer error, an unsupported
automatic Forge install, or a Forge installer error — the terminal failure
message states both that the base succeeded (`"Vanilla <base> installed"`)
and that the overlay failed (`"failed"`).  Only the missing-specifier
pre-check of the Forge path escapes this wording (see the counterexample). -/
theorem C2_overlay_failure_attribution (version e fvs : String) (env : InstallEnv)
    (hv : env.vanillaResult = Except.ok ()) :
    (env.fabricResult = Except.error e →
      statesBaseSucceededAndOverlayFailed (lastDashSegment version)
        (installRun version VType.fabric none env).1.2) ∧
    (env.supportsAutomaticInstall = false →
      statesBaseSucceededAndOverlayFailed version
        (installRun version VType.forge (some fvs) env).1.2) ∧
    (env.supportsAutomaticInstall = true → env.forgeResult = Except.error e →
      statesBaseSucceededAndOverlayFailed version
        (installRun version VType.forge (some fvs) env).1.2) := by
  have hsplit1 : (" installed, but Fabric failed: " : String).data =
      (" installed" : String).data ++ (", but Fabric failed: " : String).data := rfl
  have hsplit2 : (" installed, but Fabric failed: " : String).data =
      (" installed, but Fabric " : String).data ++ ("failed" : String).data ++
        (": " : String).data := rfl
  have hsplit3 : (" installed, but Forge failed: " : String).data =
      (" installed" : String).data ++ (", but Forge failed: " : String).data := rfl
  have hsplit4 : (" installed, but Forge failed: " : String).data =
      (" installed, but Forge " : String).data ++ ("failed" : String).data ++
        (": " : String).data := rfl
  refine ⟨fun hf => ?_, fun hs => ?_, fun hs hf => ?_⟩
  · have hmsg : (installRun version VType.fabric none env).1.2 =
        "Vanilla " ++ lastDashSegment version ++ " installed, but Fabric failed: " ++ e := by
      unfold installRun
      rw [hv, hf]
      rfl
    rw [hmsg]
    constructor
    · refine mentions_of_data_eq _ _ [] ((", but Fabric failed: " ++ e).data) ?_
      simp [String.data_append, hsplit1, List.append_assoc]
    · refine mentions_of_data_eq _ _
        (("Vanilla " ++ lastDashSegment version ++ " installed, but Fabric ").data)
        ((": " ++ e).data) ?_
      simp [String.data_append, hsplit2, List.append_assoc]
  · have hmsg : (installRun version VType.forge (some fvs) env).1.2 =
        "Vanilla " ++ version ++ " installed, but Forge failed: " ++
          "Automatic installation not supported for Forge " ++ fvs ++
          ". Please install manually." := by
      unfold installRun
      rw [hv, hs]
      rfl
    rw [hmsg]
    constructor
    · refine mentions_of_data_eq _ _ []
        ((", but Forge failed: " ++ "Automatic installation not supported for Forge " ++
          fvs ++ ". Please install manually.").data) ?_
      simp [String.data_append, hsplit3, List.append_assoc]
    · refine mentions_of_data_eq _ _
        (("Vanilla " ++ version ++ " installed, but Forge ").data)
        (((": " : String) ++ "Automatic installation not supported for Forge " ++
          fvs ++ ". Please install manually.").data) ?_
      simp [String.data_append, hsplit4, List.append_assoc]
  · have hmsg : (installRun version VType.forge (some fvs) env).1.2 =
        "Vanilla " ++ version ++ " installed, but Forge failed: " ++ e := by
      unfold installRun
      rw [hv, hs, hf]
      rfl
    rw [hmsg]
    constructor
    · refine mentions_of_data_eq _ _ [] ((", but Forge failed: " ++ e).data) ?_
      simp [String.data_append, hsplit3, List.append_assoc]
    · refine mentions_of_data_eq _ _
        (("Vanilla " ++ version ++ " installed, but Forge ").data)
        ((": " ++ e).data) ?_
      simp [String.data_append, hsplit4, List.append_assoc]

/-- Witness for `C2_overlay_failure_attribution` at a concrete request. -/
theorem C2_overlay_failure_attribution_witness :
    envAllOk.vanillaResult = Except.ok () ∧
    ((InstallEnv.mk (Except.ok ()) (Except.error "boom") true (Except.ok ())).fabricResult
        = Except.error "boom" →
      statesBaseSucceededAndOverlayFailed (lastDashSegment "fabric-loader-0.15.0-1.20.1")
        (installRun "fabric-loader-0.15.0-1.20.1" VType.fabric none
          (InstallEnv.mk (Except.ok ()) (Except.error "boom") true (Except.ok ()))).1.2) := by
  constructor
  · rfl
  · exact (C2_overlay_failure_attribution "fabric-loader-0.15.0-1.20.1" "boom" "47.2.0"
      (InstallEnv.mk (Except.ok ()) (Except.error "boom") true (Except.ok ())) rfl).1

/-- C9: a Forge (OverlayB) request whose specifier is absent runs the base
install stage to completion first (the base install effect is recorded) and
only then emits the missing-specifier failure: the terminal signal is a
failure but the base runtime has already been installed. -/
theorem C9_forge_missing_specifier_after_base (version : String) (env : InstallEnv)
    (hv : env.vanillaResult = Except.ok ()) :
    installRun version VType.forge none env =
      ((false, "Missing Forge version info for " ++ version),
        [InstallAction.installBase version]) := by
  unfold installRun
  rw [hv]
  rfl

/-- Witness for `C9_forge_missing_specifier_after_base`. -/
theorem C9_forge_missing_specifier_after_base_witness :
    envAllOk.vanillaResult = Except.ok () ∧
    installRun "1.20.1" VType.forge none envAllOk =
      ((false, "Missing Forge version info for 1.20.1"),
        [InstallAction.installBase "1.20.1"]) :=
  ⟨rfl, C9_forge_missing_specifier_after_base "1.20.1" envAllOk rfl⟩

/-! ## Launch supervisor (`MinecraftLauncherThread.run`, main.py 189-279) -/

/-- The quick-play filter predicate of main.py line 241:
`arg == "--quickPlayPath" or arg.startswith("--quickPlay")` (`startswith`
is prefix comparison on the character sequence). -/
def isQuickPlayFlag (arg : String) : Bool :=
  arg == "--quickPlayPath" || "--quickPlay".data.isPrefixOf arg.data

/-- The `skip_next` loop of main.py lines 233-245: drop every quick-play
flag and unconditionally drop the single token following it. -/
def filterQuickPlay : List String → List String
  | [] => []
  | arg :: rest =>
    if isQuickPlayFlag arg then
      match rest with
      | [] => []
      | _ :: rest2 => filterQuickPlay rest2
    else arg :: filterQuickPlay rest

/-- No quick-play flag survives the filter. -/
theorem filterQuickPlay_no_flag (cmd : List String) :
    ∀ arg ∈ filterQuickPlay cmd, isQuickPlayFlag arg = false := by
  induction cmd using filterQuickPlay.induct with
  | case1 =>
    intro a ha
    simp [filterQuickPlay] at ha
  | case2 head hf =>
    intro a ha
    rw [filterQuickPlay.eq_def] at ha
    simp [hf] at ha
  | case3 head hf head1 rest2 ih =>
    intro a ha
    rw [filterQuickPlay.eq_def] at ha
    simp only [hf, if_true] at ha
    exact ih a ha
  | case4 head rest hf ih =>
    intro a ha
    rw [filterQuickPlay.eq_def] at ha
    simp only [List.mem_cons, if_neg hf] at ha
    rcases ha with rfl | ha
    · simpa using hf
    · exact ih a ha

/-- A quick-play flag and its following value token are removed while the
non-flag tokens around them are kept. -/
theorem filterQuickPlay_removes_pair (xs : List String) (flag v : String) (ys : List String)
    (hxs : ∀ x ∈ xs, isQuickPlayFlag x = false) (hflag : isQuickPlayFlag flag = true) :
    filterQuickPlay (xs ++ flag :: v :: ys) = xs ++ filterQuickPlay ys := by
  induction xs with
  | nil =>
    rw [List.nil_append, filterQuickPlay.eq_def]
    simp [hflag]
  | cons x xs ih =>
    have hx : isQuickPlayFlag x = false := hxs x (List.mem_cons_self x xs)
    rw [List.cons_append, filterQuickPlay.eq_def]
    simp only [if_neg (by simp [hx] : ¬ isQuickPlayFlag x = true)]
    rw [ih (fun a ha => hxs a (List.mem_cons_of_mem x ha))]
    rfl

/-- The observable outcome of `subprocess.Popen` plus the one-second
liveness poll: either starting raised (with the exception text), or the
process was still running at the poll, or it had exited with a code. -/
inductive StartOutcome
  | startRaised (e : String)
  | stillRunning
  | exited (code : Int)

/-- The launch/liveness part of `MinecraftLauncherThread.run` (main.py
lines 256-279): the emitted `launch_signal` payload `(success, message)`.
A non-zero exit within the window raises `Process exited with code <c>`,
which the inner handler wraps in `Failed to execute Minecraft: ` and the
outer handler in `Error launching Minecraft: `; an exit code of zero falls
through to the success signal. -/
def launchSupervise (outcome : StartOutcome) : Bool × String :=
  match outcome with
  | StartOutcome.startRaised e =>
    (false, "Error launching Minecraft: Failed to execute Minecraft: " ++ e)
  | StartOutcome.stillRunning => (true, "Minecraft launched successfully.")
  | StartOutcome.exited code =>
    if code ≠ 0 then
      (false, "Error launching Minecraft: Failed to execute Minecraft: " ++
        "Process exited with code " ++ toString code)
    else (true, "Minecraft launched successfully.")

/-- C8: the launch filter removes every quick-play flag together with its
immediately following value token, and nothing else: (a) no quick-play
flag survives in any filtered command; (b) a quick-play flag and its
following token are deleted while the surrounding non-flag tokens are
kept; (c) in particular `["--quickPlayPath", "/x/y", "--other", "val"]`
filters to `["--other", "val"]`. -/
theorem C8_quickplay_filtering :
    (∀ cmd : List String, ∀ arg ∈ filterQuickPlay cmd, isQuickPlayFlag arg = false) ∧
    (∀ xs flag v ys, (∀ x ∈ xs, isQuickPlayFlag x = false) → isQuickPlayFlag flag = true →
      filterQuickPlay (xs ++ flag :: v :: ys) = xs ++ filterQuickPlay ys) ∧
    filterQuickPlay ["--quickPlayPath", "/x/y", "--other", "val"] = ["--other", "val"] :=
  ⟨filterQuickPlay_no_flag, filterQuickPlay_removes_pair, by decide⟩

/-- Witness for `C8_quickplay_filtering` at concrete inputs. -/
theorem C8_quickplay_filtering_witness :
    (∀ x ∈ ["--other"], isQuickPlayFlag x = false) ∧
    isQuickPlayFlag "--quickPlayMultiplayer" = true ∧
    filterQuickPlay (["--other"] ++ "--quickPlayMultiplayer" :: "srv" :: ["--user", "u"]) =
      ["--other"] ++ filterQuickPlay ["--user", "u"] := by
  refine ⟨by decide, by decide, ?_⟩
  exact C8_quickplay_filtering.2.1 ["--other"] "--quickPlayMultiplayer" "srv" ["--user", "u"]
    (by decide) (by decide)

/-- C10: a process that exits within the one-second liveness window with
status 0 is reported as a successful launch; only a non-zero exit status
within the window produces a launch failure, and its message carries the
exit code. -/
theorem C10_zero_exit_is_success :
    launchSupervise (StartOutcome.exited 0) = (true, "Minecraft launched successfully.") ∧
    (∀ code : Int, code ≠ 0 →
      launchSupervise (StartOutcome.exited code) =
        (false, "Error launching Minecraft: Failed to execute Minecraft: " ++
          "Process exited with code " ++ toString code)) := by
  refine ⟨rfl, fun code hc => ?_⟩
  simp [launchSupervise, hc]

/-- Witness for `C10_zero_exit_is_success` at exit code 1. -/
theorem C10_zero_exit_is_success_witness :
    (1 : Int) ≠ 0 ∧
    launchSupervise (StartOutcome.exited 1) =
      (false, "Error launching Minecraft: Failed to execute Minecraft: " ++
        "Process exited with code " ++ toString (1 : Int)) :=
  ⟨by decide, C10_zero_exit_is_success.2 1 (by decide)⟩

/-! ## Version catalog projector (`NovaLauncher.update_versions`, main.py 1034-1146) -/

/-- A catalog record as consumed by `update_versions` (`id`, `type`,
`releaseTime` fields of the version dicts). -/
structure VersionRecord where
  id : String
  type : String
  releaseTime : String
deriving DecidableEq, Repr

/-- The display-filter flags of the launcher state (`show_fabric`,
`show_forge`, `show_snapshots`). -/
structure DisplaySettings where
  show_fabric : Bool
  show_forge : Bool
  show_snapshots : Bool
deriving DecidableEq, Repr

/-- One combo-box row: display name plus the stored `userData`
(`id`, `type`, optional `forge_version`), main.py lines 1095-1105. -/
structure Item where
  display : String
  id : String
  vtype : VType
  forgeVersion : Option String
deriving DecidableEq, Repr

/-- Lexicographic comparison of character sequences by code point, the
order Python uses to compare strings. -/
def charListLe : List Char → List Char → Bool
  | [], _ => true
  | _ :: _, [] => false
  | a :: as, b :: bs =>
    if a.toNat = b.toNat then charListLe as bs else decide (a.toNat < b.toNat)

/-- Python string comparison `a <= b`. -/
def pyStrLe (a b : String) : Bool :=
  charListLe a.data b.data

/-- Python `list.sort(key=releaseTime, reverse=True)` (main.py 1061-1062):
a stable sort, newest timestamp first by string comparison.  Insertion
sort with the relation `b.releaseTime ≤ a.releaseTime` places an element
before all strictly smaller keys and keeps the original order of equal
keys, exactly like Python's stable reverse sort. -/
def sortByReleaseTimeDesc (l : List VersionRecord) : List VersionRecord :=
  l.insertionSort (fun a b => pyStrLe b.releaseTime a.releaseTime = true)

/-- The per-record emission of main.py lines 1068-1093: a Plain (vanilla)
row, then a Fabric row for releases when `show_fabric`, then a Forge row
for releases when `show_forge` and the external Forge lookup returns a
truthy version string (lookup failure or a falsy result silently skips
the row).  A record with a falsy `id` is skipped entirely. -/
def emitRows (st : DisplaySettings) (forgeLookup : String → Option String)
    (v : VersionRecord) : List Item :=
  if v.id == "" then []
  else
    let pfx := if v.type == "snapshot" then "[S] " else ""
    let fabricRows : List Item :=
      if st.show_fabric && (v.type == "release") then
        [⟨"Fabric " ++ v.id, v.id, VType.fabric, none⟩]
      else []
    let forgeRows : List Item :=
      if st.show_forge && (v.type == "release") then
        match forgeLookup v.id with
        | some fvs => if fvs == "" then [] else [⟨"Forge " ++ v.id, v.id, VType.forge, some fvs⟩]
        | none => []
      else []
    ⟨pfx ++ v.id, v.id, VType.vanilla, none⟩ :: (fabricRows ++ forgeRows)

/-- The projection of main.py lines 1048-1105: partition into releases and
snapshots (snapshots only when `show_snapshots`), sort each bucket by
`releaseTime` descending, concatenate snapshots first, then emit the rows
for each record in order. -/
def processVersions (records : List VersionRecord) (st : DisplaySettings)
    (forgeLookup : String → Option String) : List Item :=
  let releases := records.filter (fun r => r.type == "release")
  let snapshots := if st.show_snapshots then records.filter (fun r => r.type == "snapshot") else []
  let combined := sortByReleaseTimeDesc snapshots ++ sortByReleaseTimeDesc releases
  combined.foldr (fun v acc => emitRows st forgeLookup v ++ acc) []

/-- The Plain order stated by the claim: partition the records into release
and snapshot buckets, sort each bucket independently by `releaseTime`
descending (string comparison), and concatenate snapshots first, releases
second.  Definition written from the claim's words, for comparison with
`processVersions`. -/
def specPlainOrder (records : List VersionRecord) : List String :=
  (sortByReleaseTimeDesc (records.filter (fun r => r.type == "snapshot")) ++
    sortByReleaseTimeDesc (records.filter (fun r => r.type == "release"))).map (fun r => r.id)

/-- Overlay rows never carry the vanilla tag. -/
theorem emitRows_filter_vanilla (st : DisplaySettings) (forgeLookup : String → Option String)
    (v : VersionRecord) (hid : v.id ≠ "") :
    (emitRows st forgeLookup v).filter (fun it => it.vtype == VType.vanilla) =
      [⟨(if v.type == "snapshot" then "[S] " else "") ++ v.id, v.id, VType.vanilla, none⟩] := by
  unfold emitRows
  rw [if_neg (by simpa using hid)]
  simp only [List.filter_cons, List.filter_append]
  have h1 : ∀ l : List Item, (∀ it ∈ l, it.vtype ≠ VType.vanilla) →
      l.filter (fun it => it.vtype == VType.vanilla) = [] := by
    intro l hl
    rw [List.filter_eq_nil_iff]
    intro it hit
    simpa using hl it hit
  rw [h1, h1]
  · rfl
  · intro it hit
    split at hit
    · split at hit
      · split at hit
        · simp at hit
        · rcases List.mem_singleton.mp hit with rfl
          simp
      · simp at hit
    · simp at hit
  · intro it hit
    split at hit
    · rcases List.mem_singleton.mp hit with rfl
      simp
    · simp at hit

/-- Sorting does not change membership (insertion sort is a permutation). -/
theorem mem_sortByReleaseTimeDesc {v : VersionRecord} {l : List VersionRecord} :
    v ∈ sortByReleaseTimeDesc l ↔ v ∈ l :=
  (List.perm_insertionSort _ l).mem_iff

/-- C7: the Plain entries of the projection appear exactly in the order
given by partitioning the records into snapshot and release buckets,
sorting each bucket by `releaseTime` descending (string comparison,
stable), and concatenating snapshots first, releases second (stated for
`show_snapshots = true`, where the snapshot bucket is kept, and records
with truthy ids, which the emitter does not skip); in particular three
release records timestamped `2021-01-01`, `2023-06-01`, `2022-03-01`
project their Plain rows in the order 2023, 2022, 2021. -/
theorem C7_plain_projection_order (records : List VersionRecord) (st : DisplaySettings)
    (forgeLookup : String → Option String)
    (hsnap : st.show_snapshots = true)
    (hids : ∀ r ∈ records, r.id ≠ "") :
    ((processVersions records st forgeLookup).filter
        (fun it => it.vtype == VType.vanilla)).map (fun it => it.id) =
      specPlainOrder records ∧
    ((processVersions
        [⟨"v2021", "release", "2021-01-01"⟩,
         ⟨"v2023", "release", "2023-06-01"⟩,
         ⟨"v2022", "release", "2022-03-01"⟩]
        ⟨true, true, true⟩ (fun _ => none)).filter
          (fun it => it.vtype == VType.vanilla)).map (fun it => it.id) =
      ["v2023", "v2022", "v2021"] := by
  constructor
  · have key : ∀ l : List VersionRecord, (∀ v ∈ l, v.id ≠ "") →
        ((l.foldr (fun v acc => emitRows st forgeLookup v ++ acc) []).filter
          (fun it => it.vtype == VType.vanilla)).map (fun it => it.id) =
        l.map (fun r => r.id) := by
      intro l hl
      induction l with
      | nil => rfl
      | cons v l ih =>
        simp only [List.foldr_cons, List.filter_append, List.map_append]
        rw [emitRows_filter_vanilla st forgeLookup v (hl v (List.mem_cons_self v l))]
        rw [ih (fun a ha => hl a (List.mem_cons_of_mem v ha))]
        rfl
    unfold processVersions specPlainOrder
    simp only [hsnap, if_true]
    refine key _ (fun v hv => ?_)
    rcases List.mem_append.mp hv with h | h
    · exact hids v (List.mem_of_mem_filter (mem_sortByReleaseTimeDesc.mp h))
    · exact hids v (List.mem_of_mem_filter (mem_sortByReleaseTimeDesc.mp h))
  · decide

/-- Witness for `C7_plain_projection_order` on a concrete mixed catalog:
one snapshot and two releases with all display flags on. -/
theorem C7_plain_projection_order_witness :
    (⟨true, true, true⟩ : DisplaySettings).show_snapshots = true ∧
    (∀ r ∈ ([⟨"1.20.1", "release", "2023-06-07"⟩,
       ⟨"23w31a", "snapshot", "2023-08-01"⟩,
       ⟨"1.19.4", "release", "2023-03-14"⟩] : List VersionRecord), r.id ≠ "") ∧
    ((processVersions
        [⟨"1.20.1", "release", "2023-06-07"⟩,
         ⟨"23w31a", "snapshot", "2023-08-01"⟩,
         ⟨"1.19.4", "release", "2023-03-14"⟩]
        ⟨true, true, true⟩ (fun _ => some "47.2.0")).filter
          (fun it => it.vtype == VType.vanilla)).map (fun it => it.id) =
      specPlainOrder
        [⟨"1.20.1", "release", "2023-06-07"⟩,
         ⟨"23w31a", "snapshot", "2023-08-01"⟩,
         ⟨"1.19.4", "release", "2023-03-14"⟩] := by
  refine ⟨rfl, by decide, ?_⟩
  exact (C7_plain_projection_order
    [⟨"1.20.1", "release", "2023-06-07"⟩,
     ⟨"23w31a", "snapshot", "2023-08-01"⟩,
     ⟨"1.19.4", "release", "2023-03-14"⟩]
    ⟨true, true, true⟩ (fun _ => some "47.2.0") rfl (by decide)).1

/-! ## Catalog fetch retry loop (main.py 726-728 and 1034-1047) -/

/-- The retry bookkeeping of `NovaLauncher`: `version_retries` and
`max_retries` (main.py lines 727-728). -/
structure LoaderState where
  version_retries : Nat
  max_retries : Nat
deriving DecidableEq, Repr

/-- Initial loader state: `version_retries = 0`, `max_retries = 5`. -/
def initLoaderState : LoaderState := ⟨0, 5⟩

/-- The fixed backoff before a retry: `QTimer.singleShot(3000, ...)`
(main.py line 1044), in milliseconds. -/
def retry_backoff_ms : Nat := 3000

/-- What one call of `update_versions` does before populating. -/
inductive FetchStep
  | scheduledRetry
  | gaveUp
  | populated
deriving DecidableEq, Repr

/-- The head of `NovaLauncher.update_versions` (main.py lines 1038-1047):
on an empty fetch result, schedule a retry if the counter is below the
bound, else give up silently; on a nonempty result, reset the counter and
populate. -/
def updateVersionsStep (st : LoaderState) (versions : List VersionRecord) :
    LoaderState × FetchStep :=
  if versions.isEmpty then
    if st.version_retries < st.max_retries then
      ({ st with version_retries := st.version_retries + 1 }, FetchStep.scheduledRetry)
    else (st, FetchStep.gaveUp)
  else ({ st with version_retries := 0 }, FetchStep.populated)

/-- Run a sequence of fetch results through the retry loop, collecting the
per-fetch steps. -/
def runFetches (st : LoaderState) : List (List VersionRecord) → LoaderState × List FetchStep
  | [] => (st, [])
  | vs :: rest =>
    let (st2, r) := updateVersionsStep st vs
    let (st3, rs) := runFetches st2 rest
    (st3, r :: rs)

/-- C6: the catalog loader retries automatically with a fixed bound of 5
and a fixed 3000 ms backoff, then gives up silently: starting from the
initial state, six empty fetches schedule exactly five retries and then
give up.  In the run whose first two fetches are empty and whose third
succeeds, exactly 2 retries are scheduled and the retry counter is back
to zero after the success. -/
theorem C6_retry_bound_and_reset :
    initLoaderState.max_retries = 5 ∧
    retry_backoff_ms = 3000 ∧
    runFetches initLoaderState [[], [], [⟨"1.20.1", "release", "2023-06-07"⟩]] =
      (⟨0, 5⟩, [FetchStep.scheduledRetry, FetchStep.scheduledRetry, FetchStep.populated]) ∧
    runFetches initLoaderState [[], [], [], [], [], []] =
      (⟨5, 5⟩, [FetchStep.scheduledRetry, FetchStep.scheduledRetry, FetchStep.scheduledRetry,
        FetchStep.scheduledRetry, FetchStep.scheduledRetry, FetchStep.gaveUp]) := by
  refine ⟨rfl, rfl, by decide, by decide⟩

/-! ## Installation detector (`check_and_install_minecraft`, main.py 1175-1218) -/

/-- Tokens of an fnmatch pattern: `*` (any sequence), `?` (any single
character), a literal character, or a bracketed character class (possibly
negated, made of single characters and code-point ranges). -/
inductive GlobTok
  | star
  | qmark
  | lit (c : Char)
  | cls (negated : Bool) (items : List (Char × Char))
deriving DecidableEq, Repr

/-- Scan for the closing `]` of a bracket class, returning the content
scanned so far and the remainder after the `]`. -/
def findClose : List Char → List Char → Option (List Char × List Char)
  | _, [] => none
  | acc, c :: rest =>
    if c = ']' then some (acc.reverse, rest) else findClose (c :: acc) rest

/-- Parse a bracket class from the characters following `[`, with
fnmatch's rules: a leading `!` negates, and a `]` right after the `[`
(or after the `!`) is a literal member, not the closer.  Returns the
negation flag, the class content and the remainder after the closing
`]`; `none` when no closing `]` exists (then `[` is a literal). -/
def parseClass (ps : List Char) : Option (Bool × List Char × List Char) :=
  let negated : Bool := ps.head? == some '!'
  let ps1 := if ps.head? == some '!' then ps.tail else ps
  match ps1 with
  | ']' :: t =>
    (findClose [']'] t).map (fun r => (negated, r.1, r.2))
  | _ =>
    (findClose [] ps1).map (fun r => (negated, r.1, r.2))

/-- Turn bracket-class content into (lo, hi) ranges: `x-y` is a range,
any other character a singleton (a trailing `-` is literal, as in
fnmatch). -/
def classItems : List Char → List (Char × Char)
  | [] => []
  | x :: '-' :: y :: rest => (x, y) :: classItems rest
  | x :: rest => (x, x) :: classItems rest

/-- A character is a glob metacharacter introducing a token. -/
def isGlobMeta (c : Char) : Bool :=
  c == '*' || c == '?' || c == '['

/-- Tokenize an fnmatch pattern.  The fuel only bounds the recursion (the
class branch continues after the parsed class, which is not a structural
subterm); every step consumes at least one character, so fuel equal to
the pattern length, as `parseGlob` passes, never runs out. -/
def parseGlobAux : Nat → List Char → List GlobTok
  | 0, _ => []
  | _ + 1, [] => []
  | fuel + 1, c :: ps =>
    if c = '*' then GlobTok.star :: parseGlobAux fuel ps
    else if c = '?' then GlobTok.qmark :: parseGlobAux fuel ps
    else if c = '[' then
      match parseClass ps with
      | some r => GlobTok.cls r.1 (classItems r.2.1) :: parseGlobAux fuel r.2.2
      | none => GlobTok.lit '[' :: parseGlobAux fuel ps
    else GlobTok.lit c :: parseGlobAux fuel ps

/-- Tokenized form of an fnmatch pattern. -/
def parseGlob (p : List Char) : List GlobTok :=
  parseGlobAux p.length p

/-- A character is matched by a bracket class's items. -/
def classMatch (c : Char) (items : List (Char × Char)) : Bool :=
  items.any (fun i => decide (i.1.toNat ≤ c.toNat) && decide (c.toNat ≤ i.2.toNat))

/-- Whole-name matching of a tokenized fnmatch pattern, as the regular
expression produced by `fnmatch.translate` behaves: `*` consumes any
segment (realized by continuing at some suffix), `?` and a class consume
one character, a literal consumes itself. -/
def tokMatch : List GlobTok → List Char → Bool
  | [], s => s.isEmpty
  | GlobTok.star :: ts, s => s.tails.any (fun t => tokMatch ts t)
  | GlobTok.qmark :: ts, s =>
    match s with
    | [] => false
    | _ :: s2 => tokMatch ts s2
  | GlobTok.lit c :: ts, s =>
    match s with
    | [] => false
    | c2 :: s2 => (c = c2) && tokMatch ts s2
  | GlobTok.cls negated items :: ts, s =>
    match s with
    | [] => false
    | c :: s2 => ((classMatch c items) != negated) && tokMatch ts s2

/-- Python `fnmatch.fnmatch(name, pat)`: both sides are first run through
`os.path.normcase` — the identity on POSIX, lowercasing on Windows —
modelled by the character fold `fold`, then matched case-sensitively. -/
def fnmatchGlob (fold : Char → Char) (pat name : List Char) : Bool :=
  tokMatch (parseGlob (pat.map fold)) (name.map fold)

/-- The per-entry test of `glob.glob` for one directory component
(main.py 1209-1210): entries whose name starts with a dot are skipped
unless the pattern itself starts with a dot (glob's hidden-file rule,
applied to the raw, un-normalized strings), and the survivors are matched
with `fnmatch`. -/
def globEntryMatch (fold : Char → Char) (pat name : List Char) : Bool :=
  (pat.head? == some '.' || !(name.head? == some '.')) && fnmatchGlob fold pat name

/-- Identity fold: `os.path.normcase` on POSIX. -/
def posixFold : Char → Char := fun c => c

/-- Lowercasing fold: `os.path.normcase` on Windows (its slash
normalization is irrelevant for single entry names). -/
def windowsFold : Char → Char := Char.toLower

/-- The filesystem facts the Forge branch of the detector reads: whether
`versions/<baseId>/<baseId>.jar` exists, and the entry names under
`versions/` that `glob.glob` can match. -/
structure FsState where
  vanillaJarExists : Bool
  versionNames : List String
deriving DecidableEq, Repr

/-- The Forge branch of `check_and_install_minecraft` (main.py lines
1200-1213), on the platform whose `normcase` is `fold`: installed iff the
vanilla jar exists and some entry under `versions/` matches the glob
pattern `*<baseId>*forge*`. -/
def forgeInstalled (fold : Char → Char) (base : String) (fs : FsState) : Bool :=
  fs.vanillaJarExists &&
    fs.versionNames.any (fun n => globEntryMatch fold ("*" ++ base ++ "*forge*").data n.data)

/-- The character data of a string, lowercased character by character. -/
def lowerData (s : String) : List Char :=
  s.data.map Char.toLower

/-- The detector contract as the claim states it: the base artifact
exists and some name under `versions/` contains both the base id and the
token `forge`, case-insensitively and in any order or position.
Definition written from the claim's words, for comparison with
`forgeInstalled`. -/
def specForgeInstalled (base : String) (fs : FsState) : Prop :=
  fs.vanillaJarExists = true ∧
    ∃ n ∈ fs.versionNames,
      lowerData base <:+: lowerData n ∧ lowerData "forge" <:+: lowerData n

instance (base : String) (fs : FsState) : Decidable (specForgeInstalled base fs) := by
  unfold specForgeInstalled
  exact instDecidableAnd

/-- A pattern of stars and plain characters tokenizes pointwise. -/
theorem parseGlobAux_simple :
    ∀ (p : List Char) (fuel : Nat), p.length ≤ fuel →
      (∀ c ∈ p, c = '*' ∨ isGlobMeta c = false) →
      parseGlobAux fuel p =
        p.map (fun c => if c = '*' then GlobTok.star else GlobTok.lit c) := by
  intro p
  induction p with
  | nil =>
    intro fuel _ _
    cases fuel with
    | zero => rfl
    | succ f => rfl
  | cons c ps ih =>
    intro fuel hlen hc
    cases fuel with
    | zero => simp at hlen
    | succ f =>
      have hlen2 : ps.length ≤ f := by simpa using hlen
      have hrest : ∀ a ∈ ps, a = '*' ∨ isGlobMeta a = false :=
        fun a ha => hc a (List.mem_cons_of_mem c ha)
      rcases hc c (List.mem_cons_self c ps) with rfl | hplain
      · show GlobTok.star :: parseGlobAux f ps = _
        rw [ih f hlen2 hrest]
        simp
      · have h1 : c ≠ '*' := by
          intro h
          rw [h] at hplain
          simp [isGlobMeta] at hplain
        have h2 : c ≠ '?' := by
          intro h
          rw [h] at hplain
          simp [isGlobMeta] at hplain
        have h3 : c ≠ '[' := by
          intro h
          rw [h] at hplain
          simp [isGlobMeta] at hplain
        rw [parseGlobAux.eq_def]
        simp only [if_neg h1, if_neg h2, if_neg h3]
        rw [ih f hlen2 hrest]
        simp [if_neg h1]

/-- Tokenization of `*A*B*` for metacharacter-free `A` and `B`. -/
theorem parseGlob_star_pattern (A F : List Char)
    (hA : ∀ c ∈ A, isGlobMeta c = false) (hF : ∀ c ∈ F, isGlobMeta c = false) :
    parseGlob ('*' :: (A ++ '*' :: (F ++ ['*']))) =
      GlobTok.star ::
        (A.map GlobTok.lit ++ GlobTok.star :: (F.map GlobTok.lit ++ [GlobTok.star])) := by
  have hall : ∀ c ∈ ('*' :: (A ++ '*' :: (F ++ ['*']))), c = '*' ∨ isGlobMeta c = false := by
    intro c hcmem
    simp only [List.mem_cons, List.mem_append] at hcmem
    rcases hcmem with rfl | hA2 | rfl | hF2 | rfl | h0
    · exact Or.inl rfl
    · exact Or.inr (hA c hA2)
    · exact Or.inl rfl
    · exact Or.inr (hF c hF2)
    · exact Or.inl rfl
    · cases h0
  have hne : ∀ (l : List Char), (∀ c ∈ l, isGlobMeta c = false) →
      l.map (fun c => if c = '*' then GlobTok.star else GlobTok.lit c) =
        l.map GlobTok.lit := by
    intro l hl
    apply List.map_congr_left
    intro a ha
    have hna : a ≠ '*' := by
      intro he
      have := hl a ha
      rw [he] at this
      simp [isGlobMeta] at this
    rw [if_neg hna]
  unfold parseGlob
  rw [parseGlobAux_simple _ _ (le_refl _) hall]
  simp [List.map_cons, List.map_append, hne A hA, hne F hF]

/-- A star token consumes an arbitrary leading segment. -/
theorem tokMatch_star (ts : List GlobTok) (s : List Char) :
    tokMatch (GlobTok.star :: ts) s = true ↔
      ∃ t u, s = t ++ u ∧ tokMatch ts u = true := by
  show (s.tails.any fun t => tokMatch ts t) = true ↔ _
  rw [List.any_eq_true]
  constructor
  · rintro ⟨t, ht, hm⟩
    rcases (List.mem_tails t s).mp ht with ⟨pre, rfl⟩
    exact ⟨pre, t, rfl, hm⟩
  · rintro ⟨t, u, rfl, hu⟩
    exact ⟨u, (List.mem_tails u (t ++ u)).mpr ⟨t, rfl⟩, hu⟩

/-- A block of literal tokens consumes exactly itself. -/
theorem tokMatch_lits (l : List Char) (ts : List GlobTok) (s : List Char) :
    tokMatch (l.map GlobTok.lit ++ ts) s = true ↔
      ∃ s2, s = l ++ s2 ∧ tokMatch ts s2 = true := by
  induction l generalizing s with
  | nil =>
    simp only [List.map_nil, List.nil_append]
    exact ⟨fun h => ⟨s, rfl, h⟩, fun ⟨s2, hs2, h⟩ => hs2 ▸ h⟩
  | cons c cs ih =>
    rw [List.map_cons, List.cons_append]
    cases s with
    | nil =>
      show false = true ↔ _
      constructor
      · intro h
        cases h
      · rintro ⟨s2, hs2, -⟩
        cases hs2
    | cons c2 s2 =>
      show ((c = c2) && tokMatch (cs.map GlobTok.lit ++ ts) s2) = true ↔ _
      simp only [Bool.and_eq_true, decide_eq_true_eq]
      constructor
      · rintro ⟨rfl, h⟩
        rcases (ih s2).mp h with ⟨s3, rfl, h3⟩
        exact ⟨s3, rfl, h3⟩
      · rintro ⟨s3, hs3, h3⟩
        injection hs3 with h1 h2
        exact ⟨h1.symm, (ih s2).mpr ⟨s3, h2, h3⟩⟩

/-- A trailing lone star matches everything. -/
theorem tokMatch_star_nil (s : List Char) : tokMatch [GlobTok.star] s = true :=
  (tokMatch_star [] s).mpr ⟨s, [], by simp, rfl⟩

/-- Characterization of the token sequence of `*A*B*`: it accepts exactly
the strings containing `A` and, at or after the end of that occurrence of
`A`, also `B`. -/
theorem tokMatch_star_lit_star_lit_star (A B : List Char) (s : List Char) :
    tokMatch
      (GlobTok.star ::
        (A.map GlobTok.lit ++ GlobTok.star :: (B.map GlobTok.lit ++ [GlobTok.star]))) s = true ↔
      ∃ t u v, s = t ++ A ++ u ++ B ++ v := by
  rw [tokMatch_star]
  constructor
  · rintro ⟨t, u, rfl, hu⟩
    rcases (tokMatch_lits A _ u).mp hu with ⟨s2, rfl, h2⟩
    rw [tokMatch_star] at h2
    rcases h2 with ⟨u2, s3, rfl, h3⟩
    rcases (tokMatch_lits B _ s3).mp h3 with ⟨s4, rfl, -⟩
    exact ⟨t, u2, s4, by simp [List.append_assoc]⟩
  · rintro ⟨t, u, v, rfl⟩
    refine ⟨t, A ++ u ++ B ++ v, by simp [List.append_assoc], ?_⟩
    refine (tokMatch_lits A _ _).mpr ⟨u ++ B ++ v, by simp [List.append_assoc], ?_⟩
    rw [tokMatch_star]
    refine ⟨u, B ++ v, by simp [List.append_assoc], ?_⟩
    exact (tokMatch_lits B _ _).mpr ⟨v, by simp, tokMatch_star_nil v⟩

/-- C3, counterexample, on both platforms: for base id `1.20.1` and a
`versions/` directory containing the single entry `forge-1.20.1` (marker
token before the base id) with the vanilla jar present, the claim's
any-order contract reports installed but the detector glob
`*1.20.1*forge*` does not match, so the claimed equivalence fails — and
the input is all lowercase, so Windows case normalization changes
nothing. -/
theorem C3_counterexample :
    ¬ ((forgeInstalled posixFold "1.20.1" ⟨true, ["forge-1.20.1"]⟩ = true) ↔
        specForgeInstalled "1.20.1" ⟨true, ["forge-1.20.1"]⟩) ∧
    ¬ ((forgeInstalled windowsFold "1.20.1" ⟨true, ["forge-1.20.1"]⟩ = true) ↔
        specForgeInstalled "1.20.1" ⟨true, ["forge-1.20.1"]⟩) := by
  constructor <;>
  · intro h
    have h2 : specForgeInstalled "1.20.1" ⟨true, ["forge-1.20.1"]⟩ := by decide
    have h3 := h.mpr h2
    revert h3
    decide

/-- C3, amended: on either platform (with `normcase` fold `fold`: the
identity on POSIX, lowercasing on Windows), for a base id whose
normalized form is free of glob metacharacters, the Forge detector
reports installed iff the vanilla jar exists and some entry name under
`versions/` that does not start with a dot contains — after normalizing —
the base id followed (at or after the end of that occurrence) by the
token `forge`: the ordered glob `*<baseId>*forge*`, not an any-order
containment check. -/
theorem C3_forge_detector_characterization (fold : Char → Char) (base : String) (fs : FsState)
    (hstar : fold '*' = '*')
    (hbase : ∀ c ∈ base.data.map fold, isGlobMeta c = false)
    (hforge : ∀ c ∈ ("forge" : String).data.map fold, isGlobMeta c = false) :
    forgeInstalled fold base fs = true ↔
      fs.vanillaJarExists = true ∧
        ∃ n ∈ fs.versionNames, n.data.head? ≠ some '.' ∧
          ∃ t u v, n.data.map fold =
            t ++ base.data.map fold ++ u ++ ("forge" : String).data.map fold ++ v := by
  have hpat : ("*" ++ base ++ "*forge*").data =
      '*' :: (base.data ++ '*' :: (("forge" : String).data ++ ['*'])) := by
    have h1 : ("*" : String).data = ['*'] := rfl
    have h2 : ("*forge*" : String).data = '*' :: (("forge" : String).data ++ ['*']) := rfl
    simp [String.data_append, h1, h2]
  have hpatmap : ("*" ++ base ++ "*forge*").data.map fold =
      '*' :: (base.data.map fold ++ '*' :: ((("forge" : String).data.map fold) ++ ['*'])) := by
    rw [hpat]
    simp [List.map_cons, List.map_append, hstar]
  have hhead : ("*" ++ base ++ "*forge*").data.head? = some '*' := by
    rw [hpat]
    rfl
  have hname : ∀ n : String,
      globEntryMatch fold ("*" ++ base ++ "*forge*").data n.data = true ↔
        (n.data.head? ≠ some '.' ∧
          ∃ t u v, n.data.map fold =
            t ++ base.data.map fold ++ u ++ ("forge" : String).data.map fold ++ v) := by
    intro n
    unfold globEntryMatch fnmatchGlob
    rw [hhead, hpatmap, parseGlob_star_pattern _ _ hbase hforge, Bool.and_eq_true]
    constructor
    · rintro ⟨hh, ht⟩
      exact ⟨by simpa using hh, (tokMatch_star_lit_star_lit_star _ _ _).mp ht⟩
    · rintro ⟨hh, ht⟩
      exact ⟨by simpa using hh, (tokMatch_star_lit_star_lit_star _ _ _).mpr ht⟩
  unfold forgeInstalled
  rw [Bool.and_eq_true, List.any_eq_true]
  constructor
  · rintro ⟨hjar, n, hn, hcond⟩
    exact ⟨hjar, n, hn, (hname n).mp hcond⟩
  · rintro ⟨hjar, n, hn, hcond⟩
    exact ⟨hjar, n, hn, (hname n).mpr hcond⟩

/-- Witness for `C3_forge_detector_characterization` under the Windows
fold: base `1.20.1` with the installed entry `1.20.1-Forge-47.2.0`
(capital F, equalized by `normcase`). -/
theorem C3_forge_detector_characterization_witness :
    windowsFold '*' = '*' ∧
    (∀ c ∈ ("1.20.1" : String).data.map windowsFold, isGlobMeta c = false) ∧
    (∀ c ∈ ("forge" : String).data.map windowsFold, isGlobMeta c = false) ∧
    (forgeInstalled windowsFold "1.20.1" ⟨true, ["1.20.1-Forge-47.2.0"]⟩ = true ↔
      (⟨true, ["1.20.1-Forge-47.2.0"]⟩ : FsState).vanillaJarExists = true ∧
        ∃ n ∈ (⟨true, ["1.20.1-Forge-47.2.0"]⟩ : FsState).versionNames,
          n.data.head? ≠ some '.' ∧
            ∃ t u v, n.data.map windowsFold =
              t ++ ("1.20.1" : String).data.map windowsFold ++ u ++
                ("forge" : String).data.map windowsFold ++ v) :=
  ⟨by decide, by decide, by decide,
    C3_forge_detector_characterization windowsFold "1.20.1"
      ⟨true, ["1.20.1-Forge-47.2.0"]⟩ (by decide) (by decide) (by decide)⟩

/-! ## Selection restoration (`update_versions` tail, main.py 1107-1146) -/

/-- Python truthiness of an optional string: `None` and `""` are falsy. -/
def truthy : Option String → Bool
  | none => false
  | some s => !(s == "")

/-- The per-item test of the restoration loop (main.py lines 1118-1140):
either the persisted `last_used_version` equals the item's stored id
verbatim, or it is truthy, the item is a Fabric/Forge row, and its tail
segment after the last dash equals the item's (base) id. -/
def matchesStored (stored : Option String) (it : Item) : Bool :=
  match stored with
  | none => false
  | some s =>
    (s == it.id) ||
      (!(s == "") && (it.vtype == VType.fabric || it.vtype == VType.forge) &&
        (lastDashSegment s == it.id))

/-- The selection-restoration chain of main.py lines 1107-1146: (a) keep
the row whose display name equals the previous combo text; (b) else, if
`self.selected_version` is falsy, fall back to the first row; (c) else
select the first row matched by `matchesStored` against the persisted
`last_used_version` from the settings dict; (d) else fall back to the
first row (`none` when the list is empty). -/
def restoreSelection (items : List Item) (current : String)
    (selectedVersion storedInSettings : Option String) : Option Item :=
  match items.find? (fun it => it.display == current) with
  | some it => some it
  | none =>
    if truthy selectedVersion then
      match items.find? (matchesStored storedInSettings) with
      | some it => some it
      | none => items.head?
    else items.head?

/-- Function `List.find?` only depends on the predicate's values on the list. -/
theorem find_eq_of_agree {α : Type} {p q : α → Bool} :
    ∀ (l : List α), (∀ a ∈ l, p a = q a) → l.find? p = l.find? q := by
  intro l h
  induction l with
  | nil => rfl
  | cons a l ih =>
    have ha := h a (List.mem_cons_self a l)
    by_cases hpa : p a = true
    · rw [List.find?_cons_of_pos _ hpa, List.find?_cons_of_pos _ (ha ▸ hpa)]
    · have hqa : ¬ q a = true := fun hq => hpa (ha ▸ hq)
      rw [List.find?_cons_of_neg _ (by simpa using hpa),
        List.find?_cons_of_neg _ (by simpa using hqa)]
      exact ih (fun b hb => h b (List.mem_cons_of_mem a hb))

/-- C5: with no row keeping the previous display name, a persisted
`lastUsedVersion` of `"fabric-loader-9.0-1.20.1"` (a composite overlay
launch identity), no row whose stored id is that composite string, and
the first Fabric/Forge row with base id `1.20.1` being a Fabric row,
restoration selects exactly that Fabric (OverlayA) row — matched through
the tail segment after the last dash — and not a Plain row. -/
theorem C5_restore_selects_overlay (items : List Item) (current : String) (it0 : Item)
    (hfind : items.find? (fun it => it.display == current) = none)
    (hnoid : ∀ it ∈ items, it.id ≠ "fabric-loader-9.0-1.20.1")
    (hfirst : items.find? (fun it =>
        (it.vtype == VType.fabric || it.vtype == VType.forge) && ("1.20.1" == it.id)) =
      some it0)
    (hfab : it0.vtype = VType.fabric) :
    restoreSelection items current (some "fabric-loader-9.0-1.20.1")
        (some "fabric-loader-9.0-1.20.1") = some it0 ∧ it0.vtype ≠ VType.vanilla := by
  have hcong : ∀ it ∈ items, matchesStored (some "fabric-loader-9.0-1.20.1") it =
      ((it.vtype == VType.fabric || it.vtype == VType.forge) && ("1.20.1" == it.id)) := by
    intro it hit
    have h1 : (("fabric-loader-9.0-1.20.1" : String) == it.id) = false :=
      beq_eq_false_iff_ne.mpr (fun h => hnoid it hit h.symm)
    have h2 : lastDashSegment "fabric-loader-9.0-1.20.1" = "1.20.1" := rfl
    simp [matchesStored, h1, h2]
  constructor
  · unfold restoreSelection
    rw [hfind]
    rw [if_pos (show truthy (some "fabric-loader-9.0-1.20.1") = true from rfl)]
    rw [find_eq_of_agree items hcong, hfirst]
  · rw [hfab]
    decide

/-- A concrete two-release catalog for exercising restoration. -/
def c5Records : List VersionRecord :=
  [⟨"1.20.1", "release", "2023-06-07"⟩, ⟨"1.19.4", "release", "2023-03-14"⟩]

/-- The rows projected from `c5Records` with all display flags on and a
Forge lookup that resolves every release. -/
def c5Items : List Item :=
  processVersions c5Records ⟨true, true, true⟩ (fun _ => some "47.2.0")

/-- The Fabric row for base `1.20.1` in `c5Items`. -/
def c5Fabric : Item := ⟨"Fabric 1.20.1", "1.20.1", VType.fabric, none⟩

/-- Witness for `C5_restore_selects_overlay` on rows actually produced by
the projector. -/
theorem C5_restore_selects_overlay_witness :
    c5Items.find? (fun it => it.display == "") = none ∧
    (∀ it ∈ c5Items, it.id ≠ "fabric-loader-9.0-1.20.1") ∧
    c5Items.find? (fun it =>
        (it.vtype == VType.fabric || it.vtype == VType.forge) && ("1.20.1" == it.id)) =
      some c5Fabric ∧
    c5Fabric.vtype = VType.fabric ∧
    (restoreSelection c5Items "" (some "fabric-loader-9.0-1.20.1")
        (some "fabric-loader-9.0-1.20.1") = some c5Fabric ∧
      c5Fabric.vtype ≠ VType.vanilla) :=
  ⟨by decide, by decide, by decide, by decide,
    C5_restore_selects_overlay c5Items "" c5Fabric (by decide) (by decide) (by decide) rfl⟩
